import Mathlib

/-!
Shallow embedding of the face-matching and liveness-verification core of
the `faceattend-ke` backend (files `backend/app/face/engine.py`,
`backend/app/face/liveness.py`, `backend/app/face/routes.py`, and
`backend/app/config.py`), together with theorems settling the frozen
claims about that core.

Conventions used throughout:
- Python floats are embedded as `ℚ` (exact arithmetic, no rounding).
- Results of external library primitives (the numeric value returned by
  `face_recognition.face_distance`, the Laplacian-variance blur metric,
  the HSV skin-pixel ratio, the Haar-cascade eye count, the decoded form
  of a byte buffer) are taken as explicit inputs of the embedded
  functions; everything the repository itself computes from them is
  embedded faithfully.
- A Python `try`/`except` block is embedded with `Except`: the thrown
  exception becomes the `.error` branch.
-/

namespace Config

/-- `Config.FACE_TOLERANCE` from `backend/app/config.py` (default `0.6`). -/
def FACE_TOLERANCE : ℚ := 6/10

/-- `Config.FACE_ENCODING_MODEL` from `backend/app/config.py` (default `small`). -/
def FACE_ENCODING_MODEL : String := "small"

/-- `Config.MAX_IMAGE_SIZE_MB` from `backend/app/config.py` (default `5`). -/
def MAX_IMAGE_SIZE_MB : Nat := 5

end Config

/-- Python truthiness fallback `x or d` for an optional float `x`: the
fallback `d` is used when `x` is `None` and also when `x` is `0`
(zero is falsy in Python). -/
def pyOrQ (x : Option ℚ) (d : ℚ) : ℚ :=
  match x with
  | none => d
  | some v => if v = 0 then d else v

/-- Python truthiness fallback `x or d` for an optional string `x`: the
fallback `d` is used when `x` is `None` and also when `x` is the empty
string (falsy in Python). -/
def pyOrStr (x : Option String) (d : String) : String :=
  match x with
  | none => d
  | some v => if v = "" then d else v

/-- The `FaceEngine` object of `engine.py`: its two configuration
attributes set by `__init__`. -/
structure FaceEngine where
  tolerance : ℚ
  model : String
deriving DecidableEq

/-- `FaceEngine.__init__(self, tolerance=None, model=None)`:
`self.tolerance = tolerance or Config.FACE_TOLERANCE` and
`self.model = model or Config.FACE_ENCODING_MODEL`. -/
def FaceEngine.init (tolerance : Option ℚ) (model : Option String) : FaceEngine :=
  { tolerance := pyOrQ tolerance Config.FACE_TOLERANCE
  , model := pyOrStr model Config.FACE_ENCODING_MODEL }

/-- The dictionary returned by `FaceEngine.compare_faces`:
keys `match`, `confidence`, `distance`. -/
structure MatchResult where
  is_match : Bool
  confidence : ℚ
  distance : ℚ
deriving DecidableEq

/-- `FaceEngine.compare_faces(self, known_encoding, unknown_encoding, tolerance=None)`.

The external library computes `distance =
face_recognition.face_distance([known_encoding], unknown_encoding)[0]`
(the Euclidean norm of the difference of the two vectors); that number
enters here as the argument `dist` (`IsFaceDistance` below ties it to
concrete encodings).  The body computes `tol = tolerance or
self.tolerance` (Python truthiness), declares `match` as
`distance <= tol` (the semantics of
`face_recognition.compare_faces` with the given tolerance), and returns
`confidence = 1 - distance` and the distance itself. -/
def FaceEngine.compare_faces (self : FaceEngine) (dist : ℚ) (tolerance : Option ℚ) :
    MatchResult :=
  let tol := pyOrQ tolerance self.tolerance
  { is_match := decide (dist ≤ tol)
  , confidence := 1 - dist
  , distance := dist }

/-- A face encoding: the 128-dimensional real vector produced by the
encoder, embedded as a list of rationals. -/
abbrev Encoding := List ℚ

/-- Sum of squared componentwise differences of two encodings: the square
of the Euclidean distance that `face_recognition.face_distance` computes. -/
def sqDist (a b : Encoding) : ℚ :=
  ((a.zip b).map (fun p => (p.1 - p.2) ^ 2)).sum

/-- `d` is the value `face_recognition.face_distance` returns for the
pair of encodings `a`, `b`: the nonnegative number whose square is the
sum of squared componentwise differences.  (Only pairs whose Euclidean
distance is rational are representable; every claim settled through this
predicate exhibits such a pair.) -/
def IsFaceDistance (a b : Encoding) (d : ℚ) : Prop :=
  0 ≤ d ∧ d ^ 2 = sqDist a b

/-- The all-zero 128-dimensional encoding (used as a concrete input). -/
def encZero : Encoding := List.replicate 128 0

/-- A 128-dimensional encoding at Euclidean distance `3/2` from
`encZero` (used as a concrete input). -/
def encFar : Encoding := (3/2 : ℚ) :: List.replicate 127 0

/-- The best-match scan of `recognize_face` in `routes.py` (lines
188-199).  Each enrolled user enters as a pair of an identifier and the
distance of that user's stored encoding from the submitted encoding; the
list order is the enumeration order of the query result.  The loop body
is

    result = face_engine.compare_faces(known_encoding, unknown_encoding)
    if result['match'] and result['confidence'] > best_confidence:
        best_confidence = result['confidence']
        best_match = user

starting from `best_match = None`, `best_confidence = 0`. -/
def recognizeScan (engine : FaceEngine) :
    List (Nat × ℚ) → Option Nat → ℚ → Option Nat × ℚ
  | [], best, best_confidence => (best, best_confidence)
  | (uid, d) :: rest, best, best_confidence =>
      let result := engine.compare_faces d none
      if result.is_match = true ∧ result.confidence > best_confidence then
        recognizeScan engine rest (some uid) result.confidence
      else
        recognizeScan engine rest best best_confidence

/-- The scan of `recognize_face` started from its initial state
`best_match = None`, `best_confidence = 0`. -/
def recognize_face_scan (engine : FaceEngine) (users : List (Nat × ℚ)) :
    Option Nat × ℚ :=
  recognizeScan engine users none 0

/-- Modelled from the spec (section 5, Ordering/tie-break): one step of
the selection rule, keeping the candidate with the strictly higher
confidence and keeping the earlier candidate on ties. -/
def specStep (acc : Option (Nat × ℚ)) (cand : Nat × ℚ) : Option (Nat × ℚ) :=
  match acc with
  | none => some cand
  | some b => if cand.2 > b.2 then some cand else acc

/-- Modelled from the spec (section 5, Ordering/tie-break): select, among
all candidates that match at the tolerance (distance at most the
tolerance), the single one with the highest confidence, resolving ties in
favor of the candidate evaluated first; yields that candidate and its
confidence `1 - distance`, or nothing when no candidate matches. -/
def specBestMatch (tol : ℚ) (users : List (Nat × ℚ)) : Option (Nat × ℚ) :=
  List.foldl specStep none
    ((users.filter (fun u => decide (u.2 ≤ tol))).map (fun u => (u.1, 1 - u.2)))

/-- Conversion between the two state shapes: the spec-side selection
state (`none` or a candidate with its confidence) and the loop state of
`recognize_face` (`best_match`, `best_confidence`), whose initial value
is `(None, 0)`. -/
def toPair : Option (Nat × ℚ) → Option Nat × ℚ
  | none => (none, 0)
  | some (u, c) => (some u, c)

/-- A face bounding box `(top, right, bottom, left)` in pixel offsets, as
produced by `face_recognition.face_locations`. -/
structure FaceBox where
  top : ℤ
  right : ℤ
  bottom : ℤ
  left : ℤ
deriving DecidableEq

/-- `LivenessChecker.check_blur(image_array, threshold=100)` from
`liveness.py`.  The Laplacian variance `fm` that `cv2` computes over the
grayscale image enters as an argument; the check passes when
`fm > threshold`, and the pair `(passed, fm)` is returned. -/
def LivenessChecker.check_blur (fm : ℚ) (threshold : ℚ) : Bool × ℚ :=
  (decide (fm > threshold), fm)

/-- `LivenessChecker.check_color_distribution(image_array)` from
`liveness.py`.  The fraction `skin_ratio` of pixels inside the HSV
skin-tone range enters as an argument; the check passes when
`0.15 < skin_ratio < 0.60` (both bounds strict), and the pair
`(passed, skin_ratio)` is returned. -/
def LivenessChecker.check_color_distribution (skin_ratio : ℚ) : Bool × ℚ :=
  (decide (15/100 < skin_ratio ∧ skin_ratio < 60/100), skin_ratio)

/-- `LivenessChecker.detect_eyes(image_array, face_location)` from
`liveness.py`.  `cascade_ok` records whether loading and running the Haar
eye cascade succeeded, and `eye_count` is the number of eye regions the
cascade found on the face crop.  On success the check passes when at
least two eye regions were found and reports the count; when the cascade
raises (`except:` branch), the fallback returns `(True, 2)`. -/
def LivenessChecker.detect_eyes (cascade_ok : Bool) (eye_count : Nat) : Bool × Nat :=
  if cascade_ok then (decide (eye_count ≥ 2), eye_count)
  else (true, 2)

/-- The data a successful run of the `try:` body of
`LivenessChecker.verify` extracts from an image with `cv2`: the blur
metric, the skin-pixel ratio, the optional face box passed by the
caller, and the eye-detector outcome (cascade availability and eye
count) that `detect_eyes` would observe on the face crop. -/
structure LivenessScene where
  blur_score : ℚ
  skin_ratio : ℚ
  face_location : Option FaceBox
  cascade_ok : Bool
  eye_count : Nat
deriving DecidableEq

/-- The dictionary returned by `LivenessChecker.verify`: the verdict, the
confidence, the pass count and check count behind the `details` string,
the per-check breakdown stored in `results`, and the `error` key of the
exception branch (absent, i.e. `none`, on the success path). -/
structure LivenessResult where
  liveness_verified : Bool
  confidence : ℚ
  passed : Nat
  total : Nat
  blur : Option (Bool × ℚ)
  color_distribution : Option (Bool × ℚ)
  eyes_detected : Option (Bool × Nat)
  error : Option String
deriving DecidableEq

/-- `LivenessChecker.verify(image_bytes, face_location=None)` from
`liveness.py`.  The whole body runs inside one `try:`; an input of
`Except.error e` stands for any exception with message `e` raised while
loading the image or running the checks, and is converted to the deny
result `{liveness_verified: False, error: e, confidence: 0}`.  On the
success path the blur and color checks always run; the eye check runs
only when a face location was supplied (`if face_location:`, and a
4-tuple is always truthy), so `total` counts 2 or 3 checks;
`confidence = passed / total if total > 0 else 0` and
`liveness_verified = confidence >= 0.7`. -/
def LivenessChecker.verify (input : Except String LivenessScene) : LivenessResult :=
  match input with
  | .error e =>
      { liveness_verified := false, confidence := 0, passed := 0, total := 0
      , blur := none, color_distribution := none, eyes_detected := none
      , error := some e }
  | .ok s =>
      let b := LivenessChecker.check_blur s.blur_score 100
      let c := LivenessChecker.check_color_distribution s.skin_ratio
      match s.face_location with
      | none =>
          let passed : Nat := (if b.1 then 1 else 0) + (if c.1 then 1 else 0)
          let total : Nat := 2
          let confidence := if total > 0 then (passed : ℚ) / (total : ℚ) else 0
          { liveness_verified := decide (confidence ≥ 7/10), confidence := confidence
          , passed := passed, total := total
          , blur := some b, color_distribution := some c, eyes_detected := none
          , error := none }
      | some _loc =>
          let e := LivenessChecker.detect_eyes s.cascade_ok s.eye_count
          let passed : Nat :=
            (if b.1 then 1 else 0) + (if c.1 then 1 else 0) + (if e.1 then 1 else 0)
          let total : Nat := 3
          let confidence := if total > 0 then (passed : ℚ) / (total : ℚ) else 0
          { liveness_verified := decide (confidence ≥ 7/10), confidence := confidence
          , passed := passed, total := total
          , blur := some b, color_distribution := some c, eyes_detected := some e
          , error := none }

/-- A decoded PIL image, reduced to the attributes `preprocess_image`
inspects or changes: the color mode, the EXIF tag map `_getexif()`
yields (`none` when the image has no EXIF data), and the net rotation in
degrees applied to the pixel content so far (0 for a freshly decoded
image). -/
structure PILImage where
  mode : String
  exif : Option (List (Nat × Nat))
  rotation : Nat
deriving DecidableEq

/-- `img.rotate(deg, expand=True)`: adds to the net rotation. -/
def PILImage.rotate (img : PILImage) (deg : Nat) : PILImage :=
  { img with rotation := (img.rotation + deg) % 360 }

/-- `img.convert('RGB')`. -/
def PILImage.convertRGB (img : PILImage) : PILImage :=
  { img with mode := "RGB" }

/-- A Python exception, as far as `preprocess_image` can raise one:
a `NameError` for an unbound name, or an image-decoding failure. -/
inductive PyExc
  | nameError (name : String)
  | imageError (msg : String)
deriving DecidableEq

/-- The names that `from PIL.ExifTags import TAGS, GPSTAGS` binds in the
scope of `preprocess_image`.  The module name `ExifTags` itself is bound
nowhere in `engine.py`: neither this statement nor any top-level
statement of the file binds it. -/
def exifImportedNames : List String := ["TAGS", "GPSTAGS"]

/-- Resolution of a bare name inside `preprocess_image`; an unbound name
raises `NameError`. -/
def lookupName (n : String) : Except PyExc Unit :=
  if exifImportedNames.contains n then Except.ok ()
  else Except.error (PyExc.nameError n)

/-- The EXIF tag number whose name in `PIL.ExifTags.TAGS` is
`Orientation`; the value the loop
`for orientation in ExifTags.TAGS.keys(): if ExifTags.TAGS[orientation] == 'Orientation': break`
would leave in `orientation` if it ran. -/
def orientationTag : Nat := 274

/-- The inner `try:` block of `preprocess_image` that reads EXIF data
and rotates the image.  Its first statement evaluates
`ExifTags.TAGS.keys()`, so it resolves the bare name `ExifTags` before
anything else; the rest of the block (EXIF lookup and the three rotation
branches) is embedded after that resolution, exactly as written:
`exif = img._getexif()`, `if exif and orientation in exif:`, then
rotation by 180, 270 or 90 degrees for orientation values 3, 6, 8. -/
def exifOrientBlock (img : PILImage) : Except PyExc PILImage := do
  let _ ← lookupName "ExifTags"
  let orientation := orientationTag
  match img.exif with
  | none => pure img
  | some exif =>
      if exif = [] then pure img
      else
        match exif.lookup orientation with
        | none => pure img
        | some v =>
            if v = 3 then pure (img.rotate 180)
            else if v = 6 then pure (img.rotate 270)
            else if v = 8 then pure (img.rotate 90)
            else pure img

/-- The inner `try: ... except: pass  # Skip if no EXIF` wrapper around
`exifOrientBlock`: any exception leaves the image as it was. -/
def autoOrient (img : PILImage) : PILImage :=
  match exifOrientBlock img with
  | .ok i => i
  | .error _ => img

/-- An uploaded byte buffer, reduced to what `preprocess_image`
observes: its length in bytes and the outcome of decoding it with
`Image.open` (the decoded image, or the message of the exception the
decoder raises when the bytes are not a readable image). -/
structure RawBytes where
  length : Nat
  decoded : Except String PILImage

/-- `FaceEngine.preprocess_image(self, image_bytes, max_size_mb=5)` from
`engine.py`, returning the Python pair `(image_or_None, error_or_None)`.
The size check `len(image_bytes) > max_size_mb * 1024 * 1024` comes
first and returns `(None, 'Image too large')` without decoding; then the
outer `try:` decodes the bytes (`(None, 'Image processing error: ' + msg)`
on failure), converts to RGB when the mode differs, runs the EXIF
auto-orientation block, and re-encodes (the re-encode and reload keep
the pixel content and are embedded as returning the image itself). -/
def preprocess_image (image_bytes : RawBytes) (max_size_mb : Nat) :
    Option PILImage × Option String :=
  if image_bytes.length > max_size_mb * 1024 * 1024 then
    (none, some "Image too large")
  else
    match image_bytes.decoded with
    | .error e => (none, some ("Image processing error: " ++ e))
    | .ok img0 =>
        let img1 := if img0.mode ≠ "RGB" then img0.convertRGB else img0
        let img2 := autoOrient img1
        (some img2, none)

/-- The result of `FaceEngine.validate_image_quality`: either the
`{'valid': False, 'error': ...}` dictionary or the
`{'valid': True, 'face_location': ..., 'dimensions': ...}` dictionary. -/
inductive QualityResult
  | invalid (error : String)
  | valid (face_location : FaceBox) (width height : ℤ)
deriving DecidableEq

/-- `FaceEngine.validate_image_quality(self, image, min_face_size=80)`
from `engine.py`.  The list of boxes `self.detect_faces(image)` returns
enters as the argument `faces`; the checks follow the source order:
empty list, more than one box, then the width/height minimum on the
single box `(top, right, bottom, left)` with `face_width = right - left`
and `face_height = bottom - top`. -/
def validate_image_quality (faces : List FaceBox) (min_face_size : ℤ) : QualityResult :=
  match faces with
  | [] => QualityResult.invalid "No face detected"
  | f :: rest =>
      if 1 < (f :: rest).length then QualityResult.invalid "Multiple faces detected"
      else
        let face_width := f.right - f.left
        let face_height := f.bottom - f.top
        if face_width < min_face_size ∨ face_height < min_face_size then
          QualityResult.invalid "Face too small"
        else QualityResult.valid f face_width face_height

/-- Concrete face box of a 150 by 150 pixel face (witness input). -/
def box150 : FaceBox := { top := 0, right := 150, bottom := 150, left := 0 }

/-- Concrete decoded RGB image carrying EXIF orientation value 3
(a picture stored upside down), not yet rotated. -/
def imgExif3 : PILImage := { mode := "RGB", exif := some [(274, 3)], rotation := 0 }

/-- Concrete byte buffer that decodes to `imgExif3` (failing input for
the EXIF claim). -/
def rawExif3 : RawBytes := { length := 1000, decoded := Except.ok imgExif3 }

/-- Concrete 6 MB byte buffer (witness input for the size cap). -/
def rawTooBig : RawBytes :=
  { length := 6 * 1024 * 1024, decoded := Except.error "cannot identify image file" }

/-- Concrete small byte buffer that is not a readable image (witness
input for the decode failure). -/
def rawBad : RawBytes :=
  { length := 1000, decoded := Except.error "cannot identify image file" }

/-! ## Helper lemmas -/

lemma sqDist_encZero_encFar : sqDist encZero encFar = 9/4 := by
  have h : encZero = (0 : ℚ) :: List.replicate 127 0 := rfl
  rw [sqDist, h, encFar, List.zip_cons_cons, List.zip_replicate', List.map_cons,
    List.map_replicate, List.sum_cons, List.sum_replicate]
  norm_num

lemma ratio_bounds (p t : ℕ) (hpt : p ≤ t) (ht : 0 < t) :
    0 ≤ (p : ℚ) / (t : ℚ) ∧ (p : ℚ) / (t : ℚ) ≤ 1 := by
  constructor
  · positivity
  · rw [div_le_one (by exact_mod_cast ht)]
    exact_mod_cast hpt

/-! ## Claims -/

/-- Claim C5: any exception raised inside the liveness evaluation is
caught and converted into a result with `verified = false`,
`confidence = 0`, and an error message; `verify` never propagates an
exception (in the embedding it is a total function on `Except` inputs,
whose `.error` branch stands for any exception raised in the `try:`
body). -/
theorem liveness_exception_becomes_deny_result (e : String) :
    (LivenessChecker.verify (Except.error e)).liveness_verified = false ∧
    (LivenessChecker.verify (Except.error e)).confidence = 0 ∧
    (LivenessChecker.verify (Except.error e)).error = some e :=
  ⟨rfl, rfl, rfl⟩

/-- Claim C6 (amended): when the eye-detector resource is unavailable
the eye-region check does not abort the pipeline and contributes an
automatic pass, reported as passed with eye count 2. -/
theorem detect_eyes_unavailable_auto_pass (n : Nat) :
    LivenessChecker.detect_eyes false n = (true, 2) := rfl

/-- Claim C6 counterexample: the claim says the result carries a note
that the check was skipped rather than actually run, but the fallback
result of an unavailable detector (pass, count 2) is identical to the
result of a genuine run that found two eyes, both at the level of
`detect_eyes` and in the full liveness result, so no note distinguishes
the skipped check. -/
theorem detect_eyes_skip_has_no_note :
    LivenessChecker.detect_eyes false 0 = LivenessChecker.detect_eyes true 2 ∧
    LivenessChecker.verify (Except.ok ⟨150, 3/10, some box150, false, 0⟩) =
      LivenessChecker.verify (Except.ok ⟨150, 3/10, some box150, true, 2⟩) :=
  ⟨rfl, rfl⟩

/-- Claim C7 (code bug): `preprocess_image` never applies the EXIF
orientation correction.  The inner EXIF block references the bare name
`ExifTags`, but the import statement
`from PIL.ExifTags import TAGS, GPSTAGS` binds only `TAGS` and
`GPSTAGS`, so the block raises `NameError` on its first statement and
the bare `except: pass` swallows it: `autoOrient` is the identity, and a
decodable image carrying EXIF orientation value 3 comes back with its
rotation unchanged (0 degrees) instead of rotated 180 degrees. -/
theorem preprocess_never_rotates :
    (∀ img : PILImage, autoOrient img = img) ∧
    exifOrientBlock imgExif3 = Except.error (PyExc.nameError "ExifTags") ∧
    preprocess_image rawExif3 Config.MAX_IMAGE_SIZE_MB = (some imgExif3, none) ∧
    imgExif3.exif = some [(orientationTag, 3)] ∧ imgExif3.rotation = 0 :=
  ⟨fun _ => rfl, rfl, rfl, rfl, rfl⟩

/-- Claim C10: because the tolerance override is combined with the
default via a Python truthiness check, an engine constructed with
tolerance 0 gets the default 0.6, and `compare_faces` called with an
explicit tolerance of 0 declares a match exactly when the distance is at
most 0.6, not only when it is 0. -/
theorem compare_zero_tolerance_uses_default :
    (FaceEngine.init (some 0) none).tolerance = 6/10 ∧
    ∀ d : ℚ,
      (((FaceEngine.init (some 0) none).compare_faces d (some 0)).is_match = true ↔
        d ≤ 6/10) := by
  constructor
  · simp [FaceEngine.init, pyOrQ, Config.FACE_TOLERANCE]
  · intro d
    simp [FaceEngine.compare_faces, FaceEngine.init, pyOrQ, Config.FACE_TOLERANCE,
      decide_eq_true_iff]

/-- Claim C2 (amended): for every pair of encodings (entering through
their distance `d`) and every supplied nonzero tolerance `t`, `compare`
returns `is_match = true` exactly when `d ≤ t`, `confidence = 1 - d`,
and `distance = d`.  (With a supplied tolerance of exactly 0 the
truthiness fallback substitutes the engine tolerance; see the
counterexample.) -/
theorem compare_match_iff_within_nonzero_tolerance (eng : FaceEngine) (d t : ℚ)
    (ht : t ≠ 0) :
    (((eng.compare_faces d (some t)).is_match = true) ↔ d ≤ t) ∧
    (eng.compare_faces d (some t)).confidence = 1 - d ∧
    (eng.compare_faces d (some t)).distance = d := by
  refine ⟨?_, rfl, rfl⟩
  simp [FaceEngine.compare_faces, pyOrQ, ht, decide_eq_true_iff]

theorem compare_match_iff_within_nonzero_tolerance_witness :
    ((((FaceEngine.init none none).compare_faces (1/2) (some (7/10))).is_match = true) ↔
        (1/2 : ℚ) ≤ 7/10) ∧
    ((FaceEngine.init none none).compare_faces (1/2) (some (7/10))).confidence = 1 - 1/2 ∧
    ((FaceEngine.init none none).compare_faces (1/2) (some (7/10))).distance = 1/2 :=
  compare_match_iff_within_nonzero_tolerance (FaceEngine.init none none) (1/2) (7/10)
    (by norm_num)

/-- Claim C2 counterexample: calling `compare` on a default engine with
distance 1/2 and a supplied tolerance of 0 returns `is_match = true`
even though the distance 1/2 is not at most the supplied tolerance 0, so
the claim as stated (match exactly when distance is at most the supplied
tolerance, for every supplied tolerance) fails at tolerance 0. -/
theorem compare_zero_tolerance_counterexample :
    ((FaceEngine.init none none).compare_faces (1/2) (some 0)).is_match = true ∧
    ¬ ((1/2 : ℚ) ≤ 0) := by
  constructor
  · show decide ((1/2 : ℚ) ≤ pyOrQ (some 0) (FaceEngine.init none none).tolerance) = true
    rw [decide_eq_true_iff]
    norm_num [pyOrQ, FaceEngine.init, Config.FACE_TOLERANCE]
  · norm_num

/-- Claim C3 counterexample: for the concrete pair of 128-dimensional
encodings `encZero`, `encFar` the library distance is 3/2 (its square is
`sqDist encZero encFar = 9/4`), and the confidence `1 - 3/2` returned by
`compare_faces` is negative, outside `[0, 1]`. -/
theorem compare_confidence_negative_counterexample :
    IsFaceDistance encZero encFar (3/2) ∧
    ((FaceEngine.init none none).compare_faces (3/2) none).confidence < 0 := by
  refine ⟨⟨by norm_num, ?_⟩, ?_⟩
  · rw [sqDist_encZero_encFar]; norm_num
  · show (1 : ℚ) - 3/2 < 0
    norm_num

/-- Claim C3 (amended): for every pair of encodings at distance `d`, the
confidence `1 - d` returned by `compare` is at most 1, and it lies in
`[0, 1]` exactly when `d ≤ 1`; the source leaves it unclamped, so
distances above 1 produce negative confidence. -/
theorem compare_confidence_at_most_one_unclamped (eng : FaceEngine) (t : Option ℚ)
    (a b : Encoding) (d : ℚ) (hd : IsFaceDistance a b d) :
    (eng.compare_faces d t).confidence ≤ 1 ∧
    (0 ≤ (eng.compare_faces d t).confidence ↔ d ≤ 1) := by
  obtain ⟨hd0, -⟩ := hd
  constructor
  · show (1 : ℚ) - d ≤ 1
    linarith
  · show 0 ≤ (1 : ℚ) - d ↔ d ≤ 1
    constructor <;> intro h <;> linarith

theorem compare_confidence_at_most_one_unclamped_witness :
    ((FaceEngine.init none none).compare_faces (3/2) none).confidence ≤ 1 ∧
    (0 ≤ ((FaceEngine.init none none).compare_faces (3/2) none).confidence ↔
      (3/2 : ℚ) ≤ 1) :=
  compare_confidence_at_most_one_unclamped (FaceEngine.init none none) none encZero encFar
    (3/2)
    (by refine ⟨by norm_num, ?_⟩
        rw [sqDist_encZero_encFar]; norm_num)

/-- Claim C8: a byte buffer longer than the configured cap fails with
the `TooLarge` kind (`'Image too large'`) without the decode outcome
being consulted; a buffer within the cap whose bytes are not a readable
image fails with the `DecodeError` kind
(`'Image processing error: ...'`); and the two failure kinds are always
distinguishable (no decode message collides with the size message). -/
theorem preprocess_error_kinds (b : RawBytes) (cap : Nat) :
    (b.length > cap * 1024 * 1024 →
        preprocess_image b cap = (none, some "Image too large")) ∧
    (b.length ≤ cap * 1024 * 1024 → ∀ e : String, b.decoded = Except.error e →
        preprocess_image b cap = (none, some ("Image processing error: " ++ e))) ∧
    (∀ e : String, "Image processing error: " ++ e ≠ "Image too large") ∧
    (∀ b' : RawBytes, b'.length = b.length → b.length > cap * 1024 * 1024 →
        preprocess_image b cap = preprocess_image b' cap) := by
  refine ⟨?_, ?_, ?_, ?_⟩
  · intro h
    simp only [preprocess_image]
    rw [if_pos h]
  · intro h e he
    simp only [preprocess_image]
    rw [if_neg (by omega), he]
  · intro e heq
    have hlen := congrArg String.length heq
    rw [String.length_append] at hlen
    have h1 : ("Image processing error: " : String).length = 24 := rfl
    have h2 : ("Image too large" : String).length = 15 := rfl
    rw [h1, h2] at hlen
    omega
  · intro b' hlen h
    simp only [preprocess_image]
    rw [if_pos h, if_pos (by omega)]

theorem preprocess_error_kinds_witness :
    preprocess_image rawTooBig 5 = (none, some "Image too large") ∧
    preprocess_image rawBad 5 =
      (none, some ("Image processing error: " ++ "cannot identify image file")) :=
  ⟨(preprocess_error_kinds rawTooBig 5).1 (by decide),
   (preprocess_error_kinds rawBad 5).2.1 (by decide) "cannot identify image file" rfl⟩

/-- Claim C9: `validate_image_quality` fails with `'No face detected'`
on zero boxes, with `'Multiple faces detected'` on more than one box,
with `'Face too small'` when the single box has width or height below
`min_face_size`, and otherwise succeeds returning that box with width
and height both at least `min_face_size`. -/
theorem validate_image_quality_cases (faces : List FaceBox) (m : ℤ) :
    (faces = [] →
        validate_image_quality faces m = QualityResult.invalid "No face detected") ∧
    (1 < faces.length →
        validate_image_quality faces m = QualityResult.invalid "Multiple faces detected") ∧
    (∀ f : FaceBox, faces = [f] →
      ((f.right - f.left < m ∨ f.bottom - f.top < m) →
          validate_image_quality faces m = QualityResult.invalid "Face too small") ∧
      (m ≤ f.right - f.left → m ≤ f.bottom - f.top →
          validate_image_quality faces m =
            QualityResult.valid f (f.right - f.left) (f.bottom - f.top) ∧
          m ≤ f.right - f.left ∧ m ≤ f.bottom - f.top)) := by
  refine ⟨?_, ?_, ?_⟩
  · rintro rfl; rfl
  · intro h
    cases faces with
    | nil => simp at h
    | cons f rest =>
        simp only [validate_image_quality]
        rw [if_pos h]
  · rintro f rfl
    constructor
    · intro hsmall
      simp only [validate_image_quality]
      rw [if_neg (by simp), if_pos hsmall]
    · intro hw hh
      refine ⟨?_, hw, hh⟩
      simp only [validate_image_quality]
      rw [if_neg (by simp), if_neg (by push_neg; exact ⟨hw, hh⟩)]

theorem validate_image_quality_cases_witness :
    validate_image_quality [box150] 80 =
      QualityResult.valid box150 (box150.right - box150.left)
        (box150.bottom - box150.top) ∧
    (80 : ℤ) ≤ box150.right - box150.left ∧ (80 : ℤ) ≤ box150.bottom - box150.top :=
  ((validate_image_quality_cases [box150] 80).2.2 box150 rfl).2 (by decide) (by decide)

/-- Claim C4: on the success path of `verify`, the confidence equals
`passed / total`, the number of checks run is 2 without a face location
and 3 with one, the confidence lies in `[0, 1]`, and the verdict is true
exactly when the confidence is at least 0.7. -/
theorem liveness_confidence_ratio_and_threshold (s : LivenessScene) :
    (LivenessChecker.verify (Except.ok s)).confidence =
      ((LivenessChecker.verify (Except.ok s)).passed : ℚ) /
        ((LivenessChecker.verify (Except.ok s)).total : ℚ) ∧
    (LivenessChecker.verify (Except.ok s)).total =
      (if s.face_location.isSome then 3 else 2) ∧
    0 ≤ (LivenessChecker.verify (Except.ok s)).confidence ∧
    (LivenessChecker.verify (Except.ok s)).confidence ≤ 1 ∧
    ((LivenessChecker.verify (Except.ok s)).liveness_verified = true ↔
      (LivenessChecker.verify (Except.ok s)).confidence ≥ 7/10) := by
  obtain ⟨bs, sr, floc, cok, ec⟩ := s
  cases floc with
  | none =>
      have hp : ((if (LivenessChecker.check_blur bs 100).1 then 1 else 0) +
          (if (LivenessChecker.check_color_distribution sr).1 then 1 else 0) : ℕ) ≤ 2 := by
        cases (LivenessChecker.check_blur bs 100).1 <;>
          cases (LivenessChecker.check_color_distribution sr).1 <;> simp
      have hb := ratio_bounds _ 2 hp (by norm_num)
      exact ⟨rfl, rfl, hb.1, hb.2, decide_eq_true_iff⟩
  | some loc =>
      have hp : ((if (LivenessChecker.check_blur bs 100).1 then 1 else 0) +
          (if (LivenessChecker.check_color_distribution sr).1 then 1 else 0) +
          (if (LivenessChecker.detect_eyes cok ec).1 then 1 else 0) : ℕ) ≤ 3 := by
        cases (LivenessChecker.check_blur bs 100).1 <;>
          cases (LivenessChecker.check_color_distribution sr).1 <;>
            cases (LivenessChecker.detect_eyes cok ec).1 <;> simp
      have hb := ratio_bounds _ 3 hp (by norm_num)
      exact ⟨rfl, rfl, hb.1, hb.2, decide_eq_true_iff⟩

/-- One unfolding step of the best-match scan on a nonempty list
(definitional). -/
lemma recognizeScan_cons (engine : FaceEngine) (uid : Nat) (d : ℚ)
    (rest : List (Nat × ℚ)) (best : Option Nat) (bc : ℚ) :
    recognizeScan engine ((uid, d) :: rest) best bc =
      if (engine.compare_faces d none).is_match = true ∧
          (engine.compare_faces d none).confidence > bc then
        recognizeScan engine rest (some uid) (engine.compare_faces d none).confidence
      else recognizeScan engine rest best bc := rfl

/-- The scan of `recognize_face` computes, from any reachable loop state,
the same selection as the spec-side fold over the matching candidates.
The loop state `(best, bc)` corresponds to the spec-side state `acc`
through `toPair`, and every selected candidate has positive confidence
(which holds throughout because a match at a tolerance below 1 has
confidence `1 - distance ≥ 1 - tolerance > 0`). -/
lemma recognizeScan_eq_spec_foldl (engine : FaceEngine) (htol : engine.tolerance < 1)
    (l : List (Nat × ℚ)) :
    ∀ acc : Option (Nat × ℚ), (∀ p : Nat × ℚ, acc = some p → 0 < p.2) →
      recognizeScan engine l (toPair acc).1 (toPair acc).2 =
        toPair (List.foldl specStep acc
          ((l.filter (fun u => decide (u.2 ≤ engine.tolerance))).map
            (fun u => (u.1, 1 - u.2)))) := by
  induction l with
  | nil =>
      intro acc _
      obtain _ | ⟨u, c⟩ := acc <;> rfl
  | cons head rest ih =>
      obtain ⟨uid, d⟩ := head
      intro acc hacc
      by_cases hd : d ≤ engine.tolerance
      · rw [List.filter_cons_of_pos (by simpa using hd), List.map_cons, List.foldl_cons]
        cases acc with
        | none =>
            have hpos : (0 : ℚ) < 1 - d := by linarith
            show recognizeScan engine ((uid, d) :: rest) none 0 = _
            rw [recognizeScan_cons, if_pos ⟨decide_eq_true hd, hpos⟩]
            exact ih (some (uid, 1 - d)) (by intro p hp; cases hp; exact hpos)
        | some bc =>
            obtain ⟨b, c⟩ := bc
            have hc : (0 : ℚ) < c := hacc (b, c) rfl
            show recognizeScan engine ((uid, d) :: rest) (some b) c = _
            by_cases hgt : c < 1 - d
            · rw [recognizeScan_cons, if_pos ⟨decide_eq_true hd, hgt⟩]
              have hs : specStep (some (b, c)) (uid, 1 - d) = some (uid, 1 - d) := by
                show (if (uid, 1 - d).2 > (b, c).2 then some (uid, 1 - d)
                    else some (b, c)) = some (uid, 1 - d)
                rw [if_pos hgt]
              rw [hs]
              exact ih (some (uid, 1 - d))
                (by intro p hp; cases hp; show (0 : ℚ) < 1 - d; linarith)
            · rw [recognizeScan_cons, if_neg (fun h => hgt h.2)]
              have hs : specStep (some (b, c)) (uid, 1 - d) = some (b, c) := by
                show (if (uid, 1 - d).2 > (b, c).2 then some (uid, 1 - d)
                    else some (b, c)) = some (b, c)
                rw [if_neg hgt]
              rw [hs]
              exact ih (some (b, c)) hacc
      · rw [List.filter_cons_of_neg (by simpa using hd)]
        have h1 : recognizeScan engine ((uid, d) :: rest) (toPair acc).1 (toPair acc).2 =
            recognizeScan engine rest (toPair acc).1 (toPair acc).2 := by
          rw [recognizeScan_cons, if_neg (fun h => hd (of_decide_eq_true h.1))]
        rw [h1]
        exact ih acc hacc

/-- Claim C1: when matching against multiple enrolled encodings (at any
engine tolerance below 1, in particular the configured default 0.6), the
scan of `recognize_face` selects exactly the candidate that the
spec-side rule selects: the single candidate with the highest confidence
among all candidates that match at the tolerance, ties going to the
candidate evaluated first in the enumeration order; its state
`(best_match, best_confidence)` ends as that candidate and its
confidence, or `(None, 0)` when no candidate matches. -/
theorem recognize_selects_first_highest_confidence_match (engine : FaceEngine)
    (users : List (Nat × ℚ)) (htol : engine.tolerance < 1) :
    recognize_face_scan engine users = toPair (specBestMatch engine.tolerance users) :=
  recognizeScan_eq_spec_foldl engine htol users none (by intro p hp; cases hp)

theorem recognize_selects_first_highest_confidence_match_witness :
    recognize_face_scan (FaceEngine.init none none) [(1, 1/2), (2, 3/10), (3, 3/10)] =
      toPair (specBestMatch (FaceEngine.init none none).tolerance
        [(1, 1/2), (2, 3/10), (3, 3/10)]) :=
  recognize_selects_first_highest_confidence_match (FaceEngine.init none none)
    [(1, 1/2), (2, 3/10), (3, 3/10)]
    (by norm_num [FaceEngine.init, pyOrQ, Config.FACE_TOLERANCE])
